import Mathlib

/-!
Verification of the check-execution core of the `nagiosplugin` library
(`src/nagiosplugin/check.py`).  The `Check` class orchestrates one
evaluation pass over pluggable domain objects: resources (measurement
producers), contexts (evaluators), a summary renderer and a results
collection.  Only `check.py` is part of the sources; the collaborator
classes (`state.py`, `result.py`, `context.py`, `summary.py`,
`error.py`, `metric.py`) are modelled from the specification, as noted
on each definition.
-/

namespace NagiosPlugin

/-- Decidable equality for `Except`, needed to derive it for the
metric model below. -/
instance {ε α : Type} [DecidableEq ε] [DecidableEq α] : DecidableEq (Except ε α) := fun x y =>
  match x, y with
  | Except.ok a, Except.ok b =>
      if h : a = b then isTrue (by rw [h]) else isFalse (by simp [h])
  | Except.error a, Except.error b =>
      if h : a = b then isTrue (by rw [h]) else isFalse (by simp [h])
  | Except.ok _, Except.error _ => isFalse (by simp)
  | Except.error _, Except.ok _ => isFalse (by simp)

/-- Modelled from the spec: the severity enumeration of `state.py`
(`Ok`, `Warn`, `Critical`, `Unknown`), which is not under `src/`. -/
inductive ServiceState where
  | ok
  | warn
  | critical
  | unknown
deriving DecidableEq

/-- Modelled from the spec: the integer projection of a severity
(`state.py` is not under `src/`): Ok=0, Warning=1, Critical=2,
Unknown=3.  The fixed severity ordering Ok < Warning < Critical <
Unknown is comparison of these codes. -/
def ServiceState.toCode : ServiceState → Nat
  | .ok => 0
  | .warn => 1
  | .critical => 2
  | .unknown => 3

/-- Modelled from the spec: the binary maximum of two severities under
the fixed ordering, as used by the `max` aggregation of `result.py`
(not under `src/`). -/
def ServiceState.max (a b : ServiceState) : ServiceState :=
  if a.toCode < b.toCode then b else a

/-- Modelled from the spec: a `Metric` (`metric.py` is not under
`src/`).  Its classification by the bound context (`contexts[...]`
lookup, `metric.replace(...)` and `metric.evaluate()` in
`_evaluate_resource`) is abstracted into the field `evaluate`: either
the (severity, hint) of the produced result, or the message of the
`CheckError` that the lookup or the classification raised.  The field
`perf` is the value of `str(metric.performance() or '')`. -/
structure Metric where
  name : String
  evaluate : Except String (ServiceState × String)
  perf : String
deriving DecidableEq

/-- Modelled from the spec: a `Result` of `result.py` (not under
`src/`): severity, explanation text, and the originating measurement
(nullable). -/
structure Result where
  state : ServiceState
  hint : String
  metric : Option Metric
deriving DecidableEq

/-- Modelled from the spec: `Results.most_significant_state` of
`result.py` (not under `src/`): the maximum severity over the ordered
outcome collection; it fails (Python `ValueError` on `max` of an empty
sequence, here `none`) when the collection is empty. -/
def most_significant_state (results : List Result) : Option ServiceState :=
  match results.map Result.state with
  | [] => none
  | s :: ss => some (ss.foldl ServiceState.max s)

/-- Modelled from the spec: the observable behaviour of one call of
`resource.probe()` (the producer protocol; `resource.py` is not under
`src/`): the sequence of metrics successfully yielded, and optionally
the message of a `CheckError` raised after the last of them (or before
any, when `metrics` is empty). -/
structure ProbeOutcome where
  metrics : List Metric
  err : Option String
deriving DecidableEq

/-- Modelled from the spec: a `Resource` (measurement producer);
`resource.py` is not under `src/`.  It has a declared `name` and its
`probe` behaviour. -/
structure Resource where
  name : String
  probe : ProbeOutcome
deriving DecidableEq

/-- Modelled from the spec: a `Context` (evaluator capability);
`context.py` is not under `src/`.  Only its registration name is
needed here; its classification behaviour is carried by the metrics
(see `Metric.evaluate`). -/
structure Context where
  name : String
deriving DecidableEq

/-- Modelled from the spec: `Contexts.add` of `context.py` (not under
`src/`): registering an evaluator under its declared name;
re-registering the same name overwrites. -/
def Contexts.add (cs : List Context) (ctx : Context) : List Context :=
  if cs.any (fun c => c.name == ctx.name) then
    cs.map (fun c => if c.name == ctx.name then ctx else c)
  else
    cs ++ [ctx]

/-- Modelled from the spec: the `Summary` renderer capability
(`summary.py` is not under `src/`): `ok`, `problem` and `verbose`
renderings of the outcome collection, each of which may return missing
text (`none` models Python `None`; `some ""` models empty text). -/
structure Summary where
  ok : List Result → Option String
  problem : List Result → Option String
  verbose : List Result → Option String

/-- Modelled from the spec: the default `Summary()` collaborator built
by `Check.__init__`; its renderings are opaque to this core and
modelled as missing text. -/
def Summary.default : Summary :=
  { ok := fun _ => none, problem := fun _ => none, verbose := fun _ => none }

/-- Python `x or ''` on a nullable string: `None` and the empty string
are falsy and normalize to the empty string. -/
def orEmpty : Option String → String
  | none => ""
  | some s => s

/-- The state of a `Check` object (`check.py`): producer list,
evaluator registry, summary renderer, outcome collection,
performance-data list and name. -/
structure Check where
  resources : List Resource
  contexts : List Context
  summary : Summary
  results : List Result
  perfdata : List String
  name : String

/-- The field state established by `Check.__init__` before `add` runs
on the constructor arguments. -/
def Check.base : Check :=
  { resources := []
    contexts := []
    summary := Summary.default
    results := []
    perfdata := []
    name := "" }

/-- An argument of `Check.add`, modelled by which of the four
recognized capabilities (`isinstance` checks against `Resource`,
`Context`, `Summary`, `Results`) it satisfies, plus its runtime type
name for the `TypeError` message. -/
structure AddObject where
  typeName : String
  asResource : Option Resource
  asContext : Option Context
  asSummary : Option Summary
  asResults : Option (List Result)

/-- One iteration of the loop of `Check.add`: dispatch one object by
capability through the if/elif chain (`Resource`, then `Context`, then
`Summary`, then `Results`), or raise `TypeError` naming the object's
runtime type. -/
def Check.addOne (c : Check) (obj : AddObject) : Except String Check :=
  match obj.asResource with
  | some r =>
      Except.ok
        { c with
          resources := c.resources ++ [r]
          name :=
            if c.name = "" then
              match c.resources with
              | [] => r.name
              | r0 :: _ => r0.name
            else c.name }
  | none =>
  match obj.asContext with
  | some ctx => Except.ok { c with contexts := Contexts.add c.contexts ctx }
  | none =>
  match obj.asSummary with
  | some s => Except.ok { c with summary := s }
  | none =>
  match obj.asResults with
  | some rs => Except.ok { c with results := rs }
  | none => Except.error ("cannot add type " ++ obj.typeName ++ " to check")

/-- `Check.add`: dispatch each object in order; a `TypeError` aborts
the call at once (the objects added by earlier iterations stay added,
the remaining objects are not processed), returning the error message
alongside the state at raise time. -/
def Check.add (c : Check) : List AddObject → Check × Option String
  | [] => (c, none)
  | obj :: rest =>
      match Check.addOne c obj with
      | Except.ok c2 => Check.add c2 rest
      | Except.error e => (c, some e)

/-- The metric loop of `Check._evaluate_resource` inside the `try`
block: process the yielded metrics in order, collecting the results
and performance strings to append.  A `CheckError` during one metric's
classification appends a single Unknown result carrying that metric
and abandons the rest of this producer's metrics; a `CheckError`
raised by the producer after its last yield (`err`) appends a single
Unknown result carrying the last metric obtained (`last`). -/
def probeLoop (last : Option Metric) (err : Option String) :
    List Metric → List Result × List String
  | [] =>
      match err with
      | none => ([], [])
      | some e => ([{ state := ServiceState.unknown, hint := e, metric := last }], [])
  | m :: rest =>
      match m.evaluate with
      | Except.ok sh =>
          let recur := probeLoop (some m) err rest
          ({ state := sh.1, hint := sh.2, metric := some m } :: recur.1,
           m.perf :: recur.2)
      | Except.error e =>
          ([{ state := ServiceState.unknown, hint := e, metric := some m }], [])

/-- `Check._evaluate_resource`: probe one resource and append its
results and performance data; returns the updated check together with
the warning messages emitted through `logging.warning` (the
empty-yield diagnostic fires when the probe returns an empty sequence
without raising). -/
def Check.evaluate_resource (c : Check) (r : Resource) : Check × List String :=
  let logs :=
    if r.probe.metrics.isEmpty && r.probe.err.isNone then
      ["resource " ++ r.name ++ " did not produce any metric"]
    else []
  let step := probeLoop none r.probe.err r.probe.metrics
  ({ c with results := c.results ++ step.1, perfdata := c.perfdata ++ step.2 }, logs)

/-- The resource loop of `Check.__call__`: evaluate the given
resources in order, accumulating the emitted warnings. -/
def Check.runAll (c : Check) : List Resource → Check × List String
  | [] => (c, [])
  | r :: rest =>
      let step := Check.evaluate_resource c r
      let recur := Check.runAll step.1 rest
      (recur.1, step.2 ++ recur.2)

/-- `Check.__call__`: run the evaluation pass over every resource,
then replace `perfdata` by `sorted([p for p in self.perfdata if p])`
(drop empty fragments, sort lexicographically). -/
def Check.call (c : Check) : Check × List String :=
  let run := Check.runAll c c.resources
  ({ run.1 with
      perfdata :=
        List.insertionSort (fun a b => a ≤ b)
          (run.1.perfdata.filter (fun p => p != "")) },
   run.2)

/-- `Check.state`: the most significant severity of `results`, or
`Unknown` when that query fails on an empty collection (the
`except ValueError` branch). -/
def Check.state (c : Check) : ServiceState :=
  match most_significant_state c.results with
  | some s => s
  | none => ServiceState.unknown

/-- `Check.summary_str`: the ok rendering when the overall state is
Ok, the problem rendering otherwise, each normalized by `or ''`. -/
def Check.summary_str (c : Check) : String :=
  if c.state = ServiceState.ok then orEmpty (c.summary.ok c.results)
  else orEmpty (c.summary.problem c.results)

/-- `Check.verbose_str`: the verbose rendering, normalized by
`or ''`. -/
def Check.verbose_str (c : Check) : String :=
  orEmpty (c.summary.verbose c.results)

/-- `Check.exitcode`: `int(self.results.most_significant_state)`, or 3
when that query fails on an empty collection (the `except ValueError`
branch). -/
def Check.exitcode (c : Check) : Nat :=
  match most_significant_state c.results with
  | some s => s.toCode
  | none => 3

/-- The results contributed by evaluating one resource. -/
def resource_results (r : Resource) : List Result :=
  (probeLoop none r.probe.err r.probe.metrics).1

/-- The performance strings contributed by evaluating one resource. -/
def resource_perfdata (r : Resource) : List String :=
  (probeLoop none r.probe.err r.probe.metrics).2

/-- The results contributed by one full evaluation pass over a
resource list. -/
def all_results (rs : List Resource) : List Result :=
  (rs.map resource_results).flatten

/-- The performance strings contributed by one full evaluation pass
over a resource list, before filtering and sorting. -/
def all_perfdata (rs : List Resource) : List String :=
  (rs.map resource_perfdata).flatten

/-- The result produced for a metric whose classification succeeds. -/
def okResult (m : Metric) : Result :=
  match m.evaluate with
  | Except.ok sh => { state := sh.1, hint := sh.2, metric := some m }
  | Except.error e => { state := ServiceState.unknown, hint := e, metric := some m }

/-- The last metric obtained from a producer, given the metric trace
and the value bound before the loop (the `metric = None`
initialization of `_evaluate_resource`). -/
def lastOr (last : Option Metric) : List Metric → Option Metric
  | [] => last
  | m :: rest => lastOr (some m) rest

lemma lastOr_eq (ms : List Metric) : ∀ last : Option Metric,
    lastOr last ms = Option.or ms.getLast? last := by
  induction ms with
  | nil => intro last; simp [lastOr]
  | cons m rest ih =>
      intro last
      rw [lastOr, ih (some m)]
      cases rest with
      | nil => simp
      | cons a t =>
          rw [List.getLast?_cons_cons]
          obtain ⟨x, hx⟩ := Option.isSome_iff_exists.mp
            (List.getLast?_isSome.mpr (List.cons_ne_nil a t))
          rw [hx]
          simp [Option.or]

lemma ss_max_le_left (a b : ServiceState) :
    a.toCode ≤ (ServiceState.max a b).toCode := by
  cases a <;> cases b <;> decide

lemma ss_max_le_right (a b : ServiceState) :
    b.toCode ≤ (ServiceState.max a b).toCode := by
  cases a <;> cases b <;> decide

lemma ss_max_cases (a b : ServiceState) :
    ServiceState.max a b = a ∨ ServiceState.max a b = b := by
  cases a <;> cases b <;> decide

lemma toCode_le_foldl_max (l : List ServiceState) : ∀ s : ServiceState,
    s.toCode ≤ (l.foldl ServiceState.max s).toCode := by
  induction l with
  | nil => intro s; simp
  | cons h t ih =>
      intro s
      simp only [List.foldl_cons]
      exact Nat.le_trans (ss_max_le_left s h) (ih (ServiceState.max s h))

lemma toCode_mem_le_foldl_max (l : List ServiceState) : ∀ (s x : ServiceState), x ∈ l →
    x.toCode ≤ (l.foldl ServiceState.max s).toCode := by
  induction l with
  | nil => intro s x hx; cases hx
  | cons h t ih =>
      intro s x hx
      simp only [List.foldl_cons]
      rcases List.mem_cons.mp hx with rfl | hx2
      · exact Nat.le_trans (ss_max_le_right s x) (toCode_le_foldl_max t _)
      · exact ih _ x hx2

lemma foldl_max_mem (l : List ServiceState) : ∀ s : ServiceState,
    l.foldl ServiceState.max s = s ∨ l.foldl ServiceState.max s ∈ l := by
  induction l with
  | nil => intro s; left; rfl
  | cons h t ih =>
      intro s
      simp only [List.foldl_cons]
      rcases ih (ServiceState.max s h) with heq | hmem
      · rcases ss_max_cases s h with h1 | h1
        · left; rw [heq, h1]
        · right; rw [heq, h1]; exact List.mem_cons_self h t
      · right; exact List.mem_cons_of_mem h hmem

lemma state_cons (r0 : Result) (rs : List Result) (c : Check) (h : c.results = r0 :: rs) :
    Check.state c = (rs.map Result.state).foldl ServiceState.max r0.state := by
  simp [Check.state, most_significant_state, h]

lemma toCode_le_three (s : ServiceState) : s.toCode ≤ 3 := by
  cases s <;> decide

lemma exitcode_eq_state_code (c : Check) :
    Check.exitcode c = (Check.state c).toCode := by
  simp only [Check.exitcode, Check.state]
  cases most_significant_state c.results <;> rfl

lemma evaluate_resource_results (c : Check) (r : Resource) :
    (Check.evaluate_resource c r).1.results = c.results ++ resource_results r := rfl

lemma evaluate_resource_perfdata (c : Check) (r : Resource) :
    (Check.evaluate_resource c r).1.perfdata = c.perfdata ++ resource_perfdata r := rfl

lemma runAll_results (rs : List Resource) : ∀ c : Check,
    (Check.runAll c rs).1.results = c.results ++ all_results rs := by
  induction rs with
  | nil => intro c; simp [Check.runAll, all_results]
  | cons r rest ih =>
      intro c
      simp only [Check.runAll]
      rw [ih, evaluate_resource_results]
      simp [all_results, List.append_assoc]

lemma runAll_perfdata (rs : List Resource) : ∀ c : Check,
    (Check.runAll c rs).1.perfdata = c.perfdata ++ all_perfdata rs := by
  induction rs with
  | nil => intro c; simp [Check.runAll, all_perfdata]
  | cons r rest ih =>
      intro c
      simp only [Check.runAll]
      rw [ih, evaluate_resource_perfdata]
      simp [all_perfdata, List.append_assoc]

lemma runAll_resources (rs : List Resource) : ∀ c : Check,
    (Check.runAll c rs).1.resources = c.resources := by
  induction rs with
  | nil => intro c; rfl
  | cons r rest ih => intro c; simp only [Check.runAll]; rw [ih]; rfl

lemma runAll_contexts (rs : List Resource) : ∀ c : Check,
    (Check.runAll c rs).1.contexts = c.contexts := by
  induction rs with
  | nil => intro c; rfl
  | cons r rest ih => intro c; simp only [Check.runAll]; rw [ih]; rfl

lemma runAll_summary (rs : List Resource) : ∀ c : Check,
    (Check.runAll c rs).1.summary = c.summary := by
  induction rs with
  | nil => intro c; rfl
  | cons r rest ih => intro c; simp only [Check.runAll]; rw [ih]; rfl

lemma runAll_name (rs : List Resource) : ∀ c : Check,
    (Check.runAll c rs).1.name = c.name := by
  induction rs with
  | nil => intro c; rfl
  | cons r rest ih => intro c; simp only [Check.runAll]; rw [ih]; rfl

lemma call_results (c : Check) :
    (Check.call c).1.results = c.results ++ all_results c.resources :=
  runAll_results c.resources c

lemma call_perfdata (c : Check) :
    (Check.call c).1.perfdata =
      List.insertionSort (fun a b => a ≤ b)
        ((c.perfdata ++ all_perfdata c.resources).filter (fun p => p != "")) := by
  show List.insertionSort (fun a b => a ≤ b)
      ((Check.runAll c c.resources).1.perfdata.filter (fun p => p != "")) = _
  rw [runAll_perfdata]

lemma call_resources (c : Check) : (Check.call c).1.resources = c.resources :=
  runAll_resources c.resources c

lemma call_contexts (c : Check) : (Check.call c).1.contexts = c.contexts :=
  runAll_contexts c.resources c

lemma call_summary (c : Check) : (Check.call c).1.summary = c.summary :=
  runAll_summary c.resources c

lemma call_name (c : Check) : (Check.call c).1.name = c.name :=
  runAll_name c.resources c

lemma probeLoop_ok_err (e : String) (ms : List Metric) : ∀ last : Option Metric,
    (∀ m ∈ ms, (Metric.evaluate m).isOk = true) →
    probeLoop last (some e) ms =
      (ms.map okResult ++
        [{ state := ServiceState.unknown, hint := e, metric := lastOr last ms }],
       ms.map Metric.perf) := by
  induction ms with
  | nil => intro last h; simp [probeLoop, lastOr]
  | cons m rest ih =>
      intro last h
      have hm : (Metric.evaluate m).isOk = true := h m (List.mem_cons_self m rest)
      obtain ⟨sh, hsh⟩ : ∃ sh, Metric.evaluate m = Except.ok sh := by
        cases hev : Metric.evaluate m with
        | ok sh => exact ⟨sh, rfl⟩
        | error e2 => rw [hev] at hm; simp [Except.isOk, Except.toBool] at hm
      simp only [probeLoop, hsh]
      rw [ih (some m) (fun x hx => h x (List.mem_cons_of_mem m hx))]
      simp [okResult, hsh, lastOr]

/-- Claim C1: for every Checker, `state` is the maximum severity over
the outcome collection under the fixed ordering Ok < Warning <
Critical < Unknown (encoded by `toCode`), and on an empty collection
(in particular, a Checker never evaluated) it is Unknown rather than
an error. -/
theorem check_state_is_most_significant (c : Check) :
    (c.results = [] → Check.state c = ServiceState.unknown) ∧
    (∀ r ∈ c.results, (Result.state r).toCode ≤ (Check.state c).toCode) ∧
    (c.results ≠ [] → ∃ r ∈ c.results, Result.state r = Check.state c) ∧
    ServiceState.toCode ServiceState.ok < ServiceState.toCode ServiceState.warn ∧
    ServiceState.toCode ServiceState.warn < ServiceState.toCode ServiceState.critical ∧
    ServiceState.toCode ServiceState.critical < ServiceState.toCode ServiceState.unknown := by
  refine ⟨?_, ?_, ?_, by decide, by decide, by decide⟩
  · intro h
    simp [Check.state, most_significant_state, h]
  · intro r hr
    cases hres : c.results with
    | nil => rw [hres] at hr; cases hr
    | cons r0 rs =>
        rw [state_cons r0 rs c hres]
        rw [hres] at hr
        rcases List.mem_cons.mp hr with h | h
        · subst h; exact toCode_le_foldl_max _ _
        · exact toCode_mem_le_foldl_max _ _ _ (List.mem_map_of_mem Result.state h)
  · intro hne
    cases hres : c.results with
    | nil => exact absurd hres hne
    | cons r0 rs =>
        rw [state_cons r0 rs c hres]
        rcases foldl_max_mem (rs.map Result.state) r0.state with h | h
        · exact ⟨r0, List.mem_cons_self r0 rs, h.symm⟩
        · rcases List.mem_map.mp h with ⟨x, hx, hxe⟩
          exact ⟨x, List.mem_cons_of_mem r0 hx, hxe⟩

/-- A concrete outcome collection for which the most significant state
is attained by some element. -/
def cOkCrit : Check :=
  { Check.base with
    results :=
      [{ state := ServiceState.ok, hint := "a", metric := none },
       { state := ServiceState.critical, hint := "b", metric := none }] }

/-- Witness for claim C1 at a concrete two-element collection. -/
theorem check_state_is_most_significant_witness :
    ∃ r ∈ cOkCrit.results, Result.state r = Check.state cOkCrit :=
  (check_state_is_most_significant cOkCrit).2.2.1 (by decide)

/-- Claim C2: `exitcode` is the integer projection of the overall
state (Ok=0, Warning=1, Critical=2, Unknown=3), always lies in the set
of admissible codes 0..3, and is 3 on an empty outcome collection (in
particular on a Checker whose evaluation pass never ran), the severity
query's failure being absorbed rather than propagated. -/
theorem check_exitcode_projection (c : Check) :
    Check.exitcode c = (Check.state c).toCode ∧
    (Check.exitcode c = 0 ∨ Check.exitcode c = 1 ∨
     Check.exitcode c = 2 ∨ Check.exitcode c = 3) ∧
    (c.results = [] → Check.exitcode c = 3) := by
  refine ⟨exitcode_eq_state_code c, ?_, ?_⟩
  · have h1 := toCode_le_three (Check.state c)
    have h2 := exitcode_eq_state_code c
    omega
  · intro h
    simp [Check.exitcode, most_significant_state, h]

/-- Witness for claim C2: a freshly constructed Checker (evaluation
pass never run) has exit code 3. -/
theorem check_exitcode_projection_witness : Check.exitcode Check.base = 3 :=
  (check_exitcode_projection Check.base).2.2 rfl

/-- Claim C3: a producer that raises a check error after yielding
metrics whose classification succeeds contributes exactly one
classification result per metric plus exactly one Unknown result whose
hint is the error message and whose metric is the last one obtained
(none when the error preceded any metric); and the pass never aborts:
for every Checker, `__call__` appends the contribution of every
resource of the producer list. -/
theorem producer_error_appends_single_unknown (c : Check) (r : Resource) (e : String)
    (hok : ∀ m ∈ r.probe.metrics, (Metric.evaluate m).isOk = true)
    (herr : r.probe.err = some e) :
    (Check.evaluate_resource c r).1.results =
      c.results ++ r.probe.metrics.map okResult ++
        [{ state := ServiceState.unknown, hint := e,
           metric := r.probe.metrics.getLast? }] ∧
    (Check.evaluate_resource c r).1.results.length =
      c.results.length + r.probe.metrics.length + 1 ∧
    ∀ c2 : Check, (Check.call c2).1.results = c2.results ++ all_results c2.resources := by
  have key : (probeLoop none r.probe.err r.probe.metrics).1 =
      r.probe.metrics.map okResult ++
        [{ state := ServiceState.unknown, hint := e,
           metric := r.probe.metrics.getLast? }] := by
    rw [herr, probeLoop_ok_err e r.probe.metrics none hok]
    rw [lastOr_eq]
    cases r.probe.metrics.getLast? <;> rfl
  have h1 : (Check.evaluate_resource c r).1.results =
      c.results ++ r.probe.metrics.map okResult ++
        [{ state := ServiceState.unknown, hint := e,
           metric := r.probe.metrics.getLast? }] := by
    rw [evaluate_resource_results, resource_results, key, List.append_assoc]
  refine ⟨h1, ?_, fun c2 => call_results c2⟩
  rw [h1]
  simp [List.length_append]
  omega

/-- A concrete metric whose classification succeeds. -/
def mProbe : Metric :=
  { name := "load1", evaluate := Except.ok (ServiceState.ok, "load ok"), perf := "load1=1" }

/-- A concrete producer raising "connection refused" after one
metric. -/
def rProbe : Resource :=
  { name := "load", probe := { metrics := [mProbe], err := some "connection refused" } }

/-- Witness for claim C3 at a concrete one-metric producer whose probe
then raises. -/
theorem producer_error_appends_single_unknown_witness :
    (Check.evaluate_resource Check.base rProbe).1.results =
      Check.base.results ++ rProbe.probe.metrics.map okResult ++
        [{ state := ServiceState.unknown, hint := "connection refused",
           metric := rProbe.probe.metrics.getLast? }] :=
  (producer_error_appends_single_unknown Check.base rProbe "connection refused"
    (by decide) rfl).1

/-- Claim C4: after `__call__` completes, the performance-data list
contains no empty strings and is sorted lexicographically, for every
producer emission order and content. -/
theorem perfdata_sorted_and_nonempty (c : Check) :
    "" ∉ (Check.call c).1.perfdata ∧
    List.Sorted (fun a b : String => a ≤ b) (Check.call c).1.perfdata := by
  rw [call_perfdata c]
  constructor
  · intro hmem
    rw [List.mem_insertionSort] at hmem
    have h2 := List.mem_filter.mp hmem
    simp at h2
  · exact List.sorted_insertionSort _ _

/-- Claim C5: a producer yielding no metric (and raising no error)
contributes zero outcomes, leaves the Checker unchanged (in particular
its overall state), and emits exactly the non-fatal empty-yield
diagnostic. -/
theorem empty_probe_soft_warning (c : Check) (r : Resource)
    (h1 : r.probe.metrics = []) (h2 : r.probe.err = none) :
    (Check.evaluate_resource c r).1 = c ∧
    (Check.evaluate_resource c r).2 =
      ["resource " ++ r.name ++ " did not produce any metric"] ∧
    Check.state (Check.evaluate_resource c r).1 = Check.state c := by
  have hfst : (Check.evaluate_resource c r).1 = c := by
    simp [Check.evaluate_resource, h1, h2, probeLoop]
  refine ⟨hfst, ?_, by rw [hfst]⟩
  simp [Check.evaluate_resource, h1, h2]

/-- A concrete producer yielding nothing. -/
def rEmpty : Resource := { name := "users", probe := { metrics := [], err := none } }

/-- Witness for claim C5 at a concrete empty-yield producer. -/
theorem empty_probe_soft_warning_witness :
    (Check.evaluate_resource Check.base rEmpty).2 =
      ["resource " ++ rEmpty.name ++ " did not produce any metric"] :=
  (empty_probe_soft_warning Check.base rEmpty rfl rfl).2.1

/-- A concrete producer capability payload for the dual-capability
object below. -/
def dualResource : Resource := { name := "dual", probe := { metrics := [], err := none } }

/-- A concrete evaluator capability payload for the dual-capability
object below. -/
def dualContext : Context := { name := "dual" }

/-- A concrete object satisfying both the producer and the evaluator
capability. -/
def dualObj : AddObject :=
  { typeName := "Dual"
    asResource := some dualResource
    asContext := some dualContext
    asSummary := none
    asResults := none }

/-- The Checker state actually produced by adding `dualObj` to a fresh
Checker. -/
def dualAdded : Check :=
  { resources := [dualResource]
    contexts := []
    summary := Summary.default
    results := []
    perfdata := []
    name := "dual" }

/-- Counterexample to claim C6 as stated: an object satisfying both
the producer and the evaluator capability is routed only to the
producer role; the evaluator registry stays empty, although routing to
the evaluator role would have registered the context. -/
theorem add_multicapability_single_role :
    dualObj.asResource.isSome = true ∧ dualObj.asContext.isSome = true ∧
    Check.addOne Check.base dualObj = Except.ok dualAdded ∧
    dualAdded.contexts = [] ∧
    Contexts.add Check.base.contexts dualContext = [dualContext] := by
  refine ⟨rfl, rfl, ?_, rfl, rfl⟩
  rfl

/-- Claim C6 (amended): `add` dispatches each object by which
capabilities it satisfies, not by a declared type tag, but an object
satisfying several capabilities is routed only to the first matching
role in the fixed order producer, evaluator, summary renderer, outcome
collection. -/
theorem add_dispatch_first_matching_capability (c : Check) (obj : AddObject) :
    (∀ r, obj.asResource = some r →
      ∃ c2, Check.addOne c obj = Except.ok c2 ∧
        c2.resources = c.resources ++ [r] ∧ c2.contexts = c.contexts ∧
        c2.summary = c.summary ∧ c2.results = c.results) ∧
    (obj.asResource = none → ∀ ctx, obj.asContext = some ctx →
      ∃ c2, Check.addOne c obj = Except.ok c2 ∧
        c2.contexts = Contexts.add c.contexts ctx ∧ c2.resources = c.resources ∧
        c2.summary = c.summary ∧ c2.results = c.results) ∧
    (obj.asResource = none → obj.asContext = none → ∀ s, obj.asSummary = some s →
      ∃ c2, Check.addOne c obj = Except.ok c2 ∧
        c2.summary = s ∧ c2.resources = c.resources ∧
        c2.contexts = c.contexts ∧ c2.results = c.results) ∧
    (obj.asResource = none → obj.asContext = none → obj.asSummary = none →
      ∀ rs, obj.asResults = some rs →
      ∃ c2, Check.addOne c obj = Except.ok c2 ∧
        c2.results = rs ∧ c2.resources = c.resources ∧
        c2.contexts = c.contexts ∧ c2.summary = c.summary) := by
  refine ⟨?_, ?_, ?_, ?_⟩
  · intro r h
    simp only [Check.addOne, h]
    exact ⟨_, rfl, rfl, rfl, rfl, rfl⟩
  · intro h0 ctx h
    simp only [Check.addOne, h0, h]
    exact ⟨_, rfl, rfl, rfl, rfl, rfl⟩
  · intro h0 h1 s h
    simp only [Check.addOne, h0, h1, h]
    exact ⟨_, rfl, rfl, rfl, rfl, rfl⟩
  · intro h0 h1 h2 rs h
    simp only [Check.addOne, h0, h1, h2, h]
    exact ⟨_, rfl, rfl, rfl, rfl, rfl⟩

/-- Witness for the amended claim C6 at the concrete dual-capability
object. -/
theorem add_dispatch_first_matching_capability_witness :
    ∃ c2, Check.addOne Check.base dualObj = Except.ok c2 ∧
      c2.resources = Check.base.resources ++ [dualResource] ∧
      c2.contexts = Check.base.contexts ∧
      c2.summary = Check.base.summary ∧
      c2.results = Check.base.results :=
  (add_dispatch_first_matching_capability Check.base dualObj).1 dualResource rfl

/-- Claim C7: adding an object satisfying none of the four recognized
capabilities fails at once with a `TypeError` naming the object's
runtime type; the loop of `add` stops there (the error is returned,
not swallowed), and the outcome collection is untouched. -/
theorem add_unrecognized_object_fails (c : Check) (obj : AddObject)
    (h1 : obj.asResource = none) (h2 : obj.asContext = none)
    (h3 : obj.asSummary = none) (h4 : obj.asResults = none) :
    Check.addOne c obj =
      Except.error ("cannot add type " ++ obj.typeName ++ " to check") ∧
    ∀ rest, Check.add c (obj :: rest) =
      (c, some ("cannot add type " ++ obj.typeName ++ " to check")) := by
  have herr : Check.addOne c obj =
      Except.error ("cannot add type " ++ obj.typeName ++ " to check") := by
    simp only [Check.addOne, h1, h2, h3, h4]
  refine ⟨herr, fun rest => ?_⟩
  simp only [Check.add, herr]

/-- A concrete object with no recognized capability. -/
def invalidObj : AddObject :=
  { typeName := "int", asResource := none, asContext := none,
    asSummary := none, asResults := none }

/-- Witness for claim C7 at a concrete capability-free object. -/
theorem add_unrecognized_object_fails_witness :
    Check.addOne Check.base invalidObj =
      Except.error ("cannot add type " ++ invalidObj.typeName ++ " to check") :=
  (add_unrecognized_object_fails Check.base invalidObj rfl rfl rfl rfl).1

/-- Claim C8: `summary_str` consults the ok rendering exactly when the
overall state is Ok and the problem rendering otherwise, and missing
or empty renderer text is normalized to the empty string. -/
theorem summary_str_selection (c : Check) :
    (Check.state c = ServiceState.ok →
      Check.summary_str c = orEmpty (Summary.ok c.summary c.results)) ∧
    (Check.state c ≠ ServiceState.ok →
      Check.summary_str c = orEmpty (Summary.problem c.summary c.results)) ∧
    orEmpty none = "" ∧ orEmpty (some "") = "" := by
  refine ⟨?_, ?_, rfl, rfl⟩
  · intro h; simp [Check.summary_str, h]
  · intro h; simp [Check.summary_str, h]

/-- Witness for claim C8: a fresh Checker has state Unknown, so its
status line is the problem rendering. -/
theorem summary_str_selection_witness :
    Check.summary_str Check.base =
      orEmpty (Summary.problem Check.base.summary Check.base.results) :=
  (summary_str_selection Check.base).2.1 (by decide)

/-- Claim C9: running the evaluation pass twice is cumulative: the
second run appends the same producers' outcomes after the first run's,
and its performance fragments are appended to the existing
performance-data list before the filter-and-sort step. -/
theorem call_twice_appends (c : Check) :
    (Check.call c).1.results = c.results ++ all_results c.resources ∧
    (Check.call (Check.call c).1).1.results =
      c.results ++ all_results c.resources ++ all_results c.resources ∧
    (Check.call (Check.call c).1).1.perfdata =
      List.insertionSort (fun a b => a ≤ b)
        (((Check.call c).1.perfdata ++ all_perfdata c.resources).filter
          (fun p => p != "")) := by
  refine ⟨call_results c, ?_, ?_⟩
  · rw [call_results ((Check.call c).1), call_results c, call_resources c]
  · rw [call_perfdata ((Check.call c).1), call_resources c]

/-- Claim C10: the evaluation pass changes only the outcome collection
and the performance-data list: the producer list, the evaluator
registry, the summary renderer and the Checker's name survive
`__call__` unchanged. -/
theorem call_preserves_setup_fields (c : Check) :
    (Check.call c).1.resources = c.resources ∧
    (Check.call c).1.contexts = c.contexts ∧
    (Check.call c).1.summary = c.summary ∧
    (Check.call c).1.name = c.name :=
  ⟨call_resources c, call_contexts c, call_summary c, call_name c⟩

end NagiosPlugin
